import Mathlib

/-!
Verification of the VRChat OSC knowledge-lookup responder (`Main.py`).

Python strings are modelled as `List Char` (`PyStr`); each Python string
operation used by the program (`lower`, `strip`, `startswith`, `endswith`,
substring containment via `in`, slicing, `join`) gets an explicit model.
The knowledge base — a JSON object, hence an insertion-ordered dict — is an
association list from topic key to record.  Fallible effects (file loading,
HTTP posts, OSC sends) are modelled by explicit result values.
-/

/-- Model of a Python `str`: a list of characters. -/
abbrev PyStr := List Char

/-- Model of `str.lower()`: per-character lowercasing. -/
def pyLower (s : PyStr) : PyStr := s.map Char.toLower

/-- Whitespace predicate used by the model of `str.strip()`. -/
def isPyWs (c : Char) : Bool := c.isWhitespace

/-- Model of removing leading whitespace (left half of `str.strip()`). -/
def pyStripLeft (s : PyStr) : PyStr := s.dropWhile isPyWs

/-- Model of removing trailing whitespace (right half of `str.strip()`). -/
def pyStripRight (s : PyStr) : PyStr := (s.reverse.dropWhile isPyWs).reverse

/-- Model of Python `str.strip()`: drop whitespace from both ends. -/
def pyStrip (s : PyStr) : PyStr := pyStripRight (pyStripLeft s)

/-- Model of Python `a.startswith(b)`. -/
def pyStartsWith (s pre : PyStr) : Bool := pre.isPrefixOf s

/-- Model of Python `a.endswith(b)`. -/
def pyEndsWith (s suf : PyStr) : Bool := suf.isSuffixOf s

/-- Model of Python `pat in s` on strings: substring containment. -/
def pyContains (s pat : PyStr) : Bool := decide (pat <:+: s)

/-- Convert a Lean string literal to the `PyStr` model. -/
def strLit (s : String) : PyStr := s.toList

/-- A topic record of the knowledge base (`knowledge_base.json` entry).
`aliases` models `data.get("aliases", [])`; the four text fields are
`Option` so that an absent JSON field (`.get` default) is distinguishable
from a field present with the empty string. -/
structure TopicData where
  aliases : List PyStr
  description : Option PyStr
  details : Option PyStr
  website : Option PyStr
  contact : Option PyStr
deriving DecidableEq, Repr

/-- The knowledge base: a JSON object, i.e. an insertion-ordered mapping
from topic key to record (`knowledge_base` global of `Main.py`). -/
abbrev KB := List (PyStr × TopicData)

/-- Model of `triggers = [key.lower()] + [alias.lower() for alias in
data.get("aliases", [])]` (Main.py line 382). -/
def triggersOf (key : PyStr) (d : TopicData) : List PyStr :=
  pyLower key :: d.aliases.map pyLower

/-- Model of the per-trigger test of Main.py line 384:
`f" {trigger} " in f" {message_lower} " or message_lower.startswith(trigger)
or message_lower.endswith(trigger) or message_lower == trigger`. -/
def triggerHit (ml : PyStr) (t : PyStr) : Bool :=
  pyContains (' ' :: (ml ++ [' '])) (' ' :: (t ++ [' ']))
    || pyStartsWith ml t || pyEndsWith ml t || ml == t

/-- Model of the `any(... for trigger in triggers)` test for one topic
(Main.py lines 382-384). -/
def topicMatches (ml : PyStr) (entry : PyStr × TopicData) : Bool :=
  (triggersOf entry.1 entry.2).any (triggerHit ml)

/-- Model of `message.lower().strip()` (Main.py line 375). -/
def normalizeMsg (message : PyStr) : PyStr := pyStrip (pyLower message)

/-- Model of the matched-topic reply composition of Main.py lines 386-398:
`response = f"Regarding {key}:\n"` followed by the description (with the
`.get` placeholder) and the three conditional lines. -/
def composeMatched (key : PyStr) (d : TopicData) : PyStr :=
  let description := d.description.getD (strLit "No description available.")
  let details := d.details.getD []
  let website := d.website.getD []
  let contact := d.contact.getD []
  ((((strLit "Regarding " ++ key ++ strLit ":\n")
    ++ description)
    ++ (if details == [] then [] else strLit "\nMore Info: " ++ details))
    ++ (if website == [] then [] else strLit "\nWebsite: " ++ website))
    ++ (if contact == [] then [] else strLit "\nContact: " ++ contact)

/-- Model of the default reply set at Main.py line 376. -/
def defaultResponse (player_name : PyStr) : PyStr :=
  strLit "Sorry " ++ player_name
    ++ strLit ", I didn\x27t quite catch that. You can ask me about the businesses or topics I know."

/-- Model of the unmatched-case fallbacks of Main.py lines 404-413:
greeting, help, thanks, else the default reply. -/
def fallbackResponse (kb : KB) (player_name : PyStr) (ml : PyStr) : PyStr :=
  if pyContains ml (strLit "hello") || pyContains ml (strLit "hi") then
    strLit "Hello " ++ player_name
      ++ strLit "! How can I help? Ask me about the businesses or items here."
  else if pyContains ml (strLit "help") || pyContains ml (strLit "what can you do") then
    let business_names := List.intercalate (strLit ", ") (kb.map Prod.fst)
    let business_names :=
      if business_names == [] then strLit "any specific topics yet" else business_names
    strLit "I can tell you about: " ++ business_names
      ++ strLit ". I also notify owners when certain items are interacted with."
  else if pyContains ml (strLit "thank") then
    strLit "You\x27re welcome, " ++ player_name ++ strLit "!"
  else
    defaultResponse player_name

/-- Model of `get_ai_response` (Main.py lines 370-415): normalize the
message, scan the store in iteration order stopping at the first matching
topic (the `for`/`break` loop is exactly `List.find?`), fall back to the
canned replies otherwise, and `strip()` the result. -/
def get_ai_response (kb : KB) (player_name : PyStr) (message : PyStr) : PyStr :=
  let message_lower := normalizeMsg message
  let response :=
    match kb.find? (topicMatches message_lower) with
    | some (key, d) => composeMatched key d
    | none => fallbackResponse kb player_name message_lower
  pyStrip response

/-- A typed OSC argument value as delivered by the dispatcher. -/
inductive OSCValue where
  | str (s : PyStr)
  | bool (b : Bool)
  | int (n : Int)
deriving DecidableEq, Repr

/-- An outbound OSC message: address pattern plus arguments. -/
structure OutboundOSC where
  address : PyStr
  args : List OSCValue
deriving DecidableEq, Repr

/-- The fixed outbound chat address (Main.py line 456). -/
def osc_chat_address : PyStr := strLit "/avatar/parameters/Chatbox"

/-- Model of `handle_chat_message` (Main.py lines 438-467): drop non-string
or whitespace-only messages (returning `none`, no outbound send); otherwise
strip the message, compute the reply, truncate it to 144 characters
(`ai_response[:max_len-3] + "..."` when over the limit) and send one
outbound message `[True, reply]` to the chatbox address. -/
def handle_chat_message (kb : KB) (playerName playerId : PyStr) (message : OSCValue) :
    Option OutboundOSC :=
  match message with
  | OSCValue.str s =>
    if pyStrip s == [] then none
    else
      let message := pyStrip s
      let ai_response := get_ai_response kb playerName message
      let max_len := 144
      let ai_response_truncated :=
        if max_len < ai_response.length then ai_response.take (max_len - 3) ++ strLit "..."
        else ai_response
      some ⟨osc_chat_address, [OSCValue.bool true, OSCValue.str ai_response_truncated]⟩
  | _ => none

/-- The part of the configuration that `send_discord_notification` reads. -/
structure NotifyConfig where
  discord_webhook_url : PyStr
  owner_discord_ids : List PyStr
deriving DecidableEq, Repr

/-- An outbound HTTP POST issued by the notifier: target URL, the JSON
body's `content` field, and the timeout in seconds. -/
structure HttpPost where
  url : PyStr
  content : PyStr
  timeout : Nat
deriving DecidableEq, Repr

/-- Model of `send_discord_notification` (Main.py lines 342-366), returning
the list of HTTP POSTs it performs: none when no webhook URL is configured,
otherwise exactly one with content
`f"{owner_pings}\n{message}".strip()` and a 10-second timeout.  Response
errors are caught and logged in the source, so the call trace does not
depend on the response and the function always returns to its caller. -/
def send_discord_notification (cfg : NotifyConfig) (message : PyStr) : List HttpPost :=
  let webhook_url := cfg.discord_webhook_url
  if webhook_url == [] then []
  else
    let owner_ids := cfg.owner_discord_ids
    let owner_pings := if owner_ids == [] then [] else List.intercalate (strLit " ") owner_ids
    let content := pyStrip (owner_pings ++ strLit "\n" ++ message)
    [⟨webhook_url, content, 10⟩]

/-- Outcome of opening and JSON-parsing the knowledge file. -/
inductive KBLoadResult where
  | ok (kb : KB)
  | missing
  | malformed
deriving DecidableEq, Repr

/-- Model of `load_knowledge_base` (Main.py lines 293-309): the global is
assigned the parsed object on success and `{}` on a missing or malformed
file; the previous store contents are discarded unconditionally. -/
def load_knowledge_base (file : KBLoadResult) (_prev : KB) : KB :=
  match file with
  | KBLoadResult.ok kb => kb
  | KBLoadResult.missing => []
  | KBLoadResult.malformed => []

/-! Helper lemmas about the string models. -/

/-- Lowercasing fixes whitespace characters. -/
theorem char_toLower_of_ws (c : Char) (h : c.isWhitespace = true) : c.toLower = c := by
  have h2 : ((c = ' ' ∨ c = '\t') ∨ c = '\x0d') ∨ c = '\n' := by
    simpa [Char.isWhitespace, decide_eq_true_eq] using h
  rcases h2 with ((h2 | h2) | h2) | h2 <;> subst h2 <;> decide

/-- A `dropWhile` walks over an append whose right part starts with a
character failing the predicate. -/
theorem dropWhile_append_of_neg (p : Char → Bool) (c : Char) (xs ys : List Char)
    (h : p c = false) :
    List.dropWhile p (xs ++ c :: ys) = List.dropWhile p xs ++ c :: ys := by
  induction xs with
  | nil => simp [List.dropWhile_cons, h]
  | cons a l ih => by_cases hp : p a = true <;> simp [List.dropWhile_cons, hp, ih]

/-- Left strip does nothing to a string starting with non-whitespace. -/
theorem pyStripLeft_cons (c : Char) (l : PyStr) (h : isPyWs c = false) :
    pyStripLeft (c :: l) = c :: l := by
  simp [pyStripLeft, List.dropWhile_cons, h]

/-- Right strip does nothing to a string ending in non-whitespace. -/
theorem pyStripRight_append_singleton (X : PyStr) (c : Char) (h : isPyWs c = false) :
    pyStripRight (X ++ [c]) = X ++ [c] := by
  simp [pyStripRight, List.dropWhile_cons, h]

/-- Right strip only touches the part after a non-whitespace character. -/
theorem pyStripRight_append (X : PyStr) (c : Char) (rest : PyStr) (h : isPyWs c = false) :
    pyStripRight ((X ++ [c]) ++ rest) = (X ++ [c]) ++ pyStripRight rest := by
  unfold pyStripRight
  rw [List.reverse_append, show ((X ++ [c]).reverse : PyStr) = c :: X.reverse by simp,
    dropWhile_append_of_neg _ _ _ _ h]
  simp

/-- Stripping a string with a non-whitespace head keeps the head. -/
theorem pyStrip_cons (c : Char) (l : PyStr) (h : isPyWs c = false) :
    pyStrip (c :: l) = c :: pyStripRight l := by
  unfold pyStrip
  rw [pyStripLeft_cons c l h]
  unfold pyStripRight
  rw [List.reverse_cons, dropWhile_append_of_neg _ _ _ _ h]
  simp

/-- Stripping an all-whitespace string yields the empty string. -/
theorem pyStrip_eq_nil_of_ws (l : PyStr) (h : ∀ c ∈ l, isPyWs c = true) :
    pyStrip l = [] := by
  have h1 : pyStripLeft l = [] := by
    simpa [pyStripLeft] using List.dropWhile_eq_nil_iff.mpr h
  simp [pyStrip, h1, pyStripRight]

/-- Normalizing an all-whitespace message yields the empty string. -/
theorem normalizeMsg_of_ws (msg : PyStr) (h : ∀ c ∈ msg, isPyWs c = true) :
    normalizeMsg msg = [] := by
  apply pyStrip_eq_nil_of_ws
  intro c hc
  obtain ⟨a, ha, rfl⟩ := List.mem_map.mp hc
  have hwa := h a ha
  rw [char_toLower_of_ws a (by simpa [isPyWs] using hwa)]
  exact hwa

/-- A scan stopping at the first hit finds the designated element when
everything before it misses. -/
theorem find?_middle {α : Type} (p : α → Bool) (pre post : List α) (x : α)
    (hpre : ∀ e ∈ pre, p e = false) (hx : p x = true) :
    List.find? p (pre ++ x :: post) = some x := by
  induction pre with
  | nil => simp [List.find?_cons, hx]
  | cons a l ih =>
      have ha := hpre a (by simp)
      rw [List.cons_append, List.find?_cons, ha]
      exact ih fun e he => hpre e (by simp [he])

/-! Claim C1: the matching predicate and the scan order. -/

/-- Definition following the words of the spec (algorithm step 3): a topic
is matched when the normalized text equals any trigger exactly, or starts
with any trigger, or ends with any trigger, or the text padded with one
space on each side contains the trigger padded with one space on each side;
the triggers are the lower-cased key and the lower-cased aliases. -/
def specTopicMatched (ml : PyStr) (entry : PyStr × TopicData) : Bool :=
  (pyLower entry.1 :: entry.2.aliases.map pyLower).any fun t =>
    ml == t || pyStartsWith ml t || pyEndsWith ml t
      || pyContains (' ' :: (ml ++ [' '])) (' ' :: (t ++ [' ']))

/-- Reordering a four-way boolean disjunction. -/
theorem bool_or_perm (a b c d : Bool) :
    (((a || b) || c) || d) = (((d || b) || c) || a) := by
  cases a <;> cases b <;> cases c <;> cases d <;> rfl

/-- The per-topic test of the source equals the spec's wording. -/
theorem topicMatches_eq_spec (ml : PyStr) (entry : PyStr × TopicData) :
    topicMatches ml entry = specTopicMatched ml entry := by
  unfold topicMatches specTopicMatched triggersOf triggerHit
  congr 1
  funext t
  exact bool_or_perm _ _ _ _

/-- Claim C1: for every knowledge store and every input text, the matcher
declares a topic matched exactly under the spec's four-way trigger
condition on the trimmed lower-cased text, and the scan is a
first-match-wins pass in store iteration order (`List.find?`). -/
theorem matcher_condition_c1 (kb : KB) (text : PyStr) :
    (∀ entry, topicMatches (normalizeMsg text) entry
        = specTopicMatched (normalizeMsg text) entry)
    ∧ List.find? (topicMatches (normalizeMsg text)) kb
        = List.find? (specTopicMatched (normalizeMsg text)) kb := by
  refine ⟨fun entry => topicMatches_eq_spec _ entry, ?_⟩
  induction kb with
  | nil => rfl
  | cons a l ih => rw [List.find?_cons, List.find?_cons, topicMatches_eq_spec, ih]

/-! Claim C4: the responder is total and never returns an empty reply. -/

/-- Stripping keeps a non-whitespace head, so the result is non-empty. -/
theorem pyStrip_cons_ne_nil (c : Char) (l : PyStr) (h : isPyWs c = false) :
    pyStrip (c :: l) ≠ [] := by
  rw [pyStrip_cons c l h]
  simp

/-- Stripping a string headed by a non-whitespace character is non-empty. -/
theorem pyStrip_append_ne_nil (c : Char) (u v : PyStr) (h : isPyWs c = false) :
    pyStrip ((c :: u) ++ v) ≠ [] := by
  rw [List.cons_append]
  exact pyStrip_cons_ne_nil _ _ h

/-- Every matched-topic reply starts with the letter R of `Regarding`. -/
theorem composeMatched_head (key : PyStr) (d : TopicData) :
    ∃ rest, composeMatched key d = 'R' :: rest := ⟨_, rfl⟩

/-- Claim C4: for every store state, speaker and input text, the responder
is a total function (exceptions have no counterpart in the model) and its
reply is a non-empty string. -/
theorem respond_nonempty_c4 (kb : KB) (speaker text : PyStr) :
    get_ai_response kb speaker text ≠ [] := by
  simp only [get_ai_response]
  cases hf : List.find? (topicMatches (normalizeMsg text)) kb with
  | some kd =>
      obtain ⟨key, d⟩ := kd
      show pyStrip (composeMatched key d) ≠ []
      obtain ⟨rest, hr⟩ := composeMatched_head key d
      rw [hr]
      exact pyStrip_cons_ne_nil _ _ (by decide)
  | none =>
      show pyStrip (fallbackResponse kb speaker (normalizeMsg text)) ≠ []
      simp only [fallbackResponse, defaultResponse]
      split_ifs <;>
        first
          | exact pyStrip_append_ne_nil 'H' _ _ (by decide)
          | exact pyStrip_append_ne_nil 'I' _ _ (by decide)
          | exact pyStrip_append_ne_nil 'Y' _ _ (by decide)
          | exact pyStrip_append_ne_nil 'S' _ _ (by decide)

/-! Claim C5: whitespace-only input and topic matching. -/

/-- A topic record with no optional fields, used in concrete examples. -/
def d0 : TopicData := ⟨[], none, none, none, none⟩

/-- A store containing a topic whose key is the empty string. -/
def kbC5 : KB := [([], d0)]

/-- Counterexample to claim C5 as stated: over a store containing an
empty-string topic key, the empty input does match that topic (the
`message_lower == trigger` and `startswith` checks hold for the empty
trigger), so the reply is that topic's composed reply, not the generic
one. -/
theorem respond_empty_counterexample_c5 :
    topicMatches (normalizeMsg []) ([], d0) = true
    ∧ get_ai_response kbC5 (strLit "s") [] = pyStrip (composeMatched [] d0)
    ∧ get_ai_response kbC5 (strLit "s") [] ≠ defaultResponse (strLit "s") := by
  refine ⟨by decide, by decide, by decide⟩

/-- Against the empty normalized message, no non-empty trigger fires: the
padded containment, prefix, suffix and equality checks all fail. -/
theorem triggerHit_nil_of_ne (t : PyStr) (ht : t ≠ []) : triggerHit [] t = false := by
  unfold triggerHit pyContains pyStartsWith pyEndsWith
  have h1 : ¬((' ' :: (t ++ [' '])) <:+: ([' ', ' '] : PyStr)) := by
    intro hinf
    have hl := hinf.length_le
    simp only [List.length_cons, List.length_append, List.length_nil] at hl
    have hp := List.length_pos.mpr ht
    omega
  have h2 : t.isPrefixOf ([] : PyStr) = false := by
    rw [Bool.eq_false_iff]
    intro hp
    exact ht (List.prefix_nil.mp (List.isPrefixOf_iff_prefix.mp hp))
  have h3 : t.isSuffixOf ([] : PyStr) = false := by
    rw [Bool.eq_false_iff]
    intro hp
    exact ht (List.suffix_nil.mp (List.isSuffixOf_iff_suffix.mp hp))
  have h4 : (([] : PyStr) == t) = false := by
    rw [Bool.eq_false_iff]
    intro hb
    exact ht (beq_iff_eq.mp hb).symm
  simp [h1, h2, h3, h4]

/-- The default reply carries no surrounding whitespace, so the final
`strip()` leaves it unchanged. -/
theorem pyStrip_defaultResponse (sp : PyStr) :
    pyStrip (defaultResponse sp) = defaultResponse sp := by
  unfold defaultResponse
  rw [show strLit "Sorry " = 'S' :: strLit "orry " from rfl]
  rw [show strLit ", I didn\x27t quite catch that. You can ask me about the businesses or topics I know."
      = strLit ", I didn\x27t quite catch that. You can ask me about the businesses or topics I know" ++ ['.'] from rfl]
  rw [List.cons_append, List.cons_append]
  rw [pyStrip_cons _ _ (by decide)]
  congr 1
  rw [show (strLit "orry " ++ sp) ++ (strLit ", I didn\x27t quite catch that. You can ask me about the businesses or topics I know" ++ ['.'])
      = ((strLit "orry " ++ sp) ++ strLit ", I didn\x27t quite catch that. You can ask me about the businesses or topics I know") ++ ['.']
      from (List.append_assoc _ _ _).symm]
  exact pyStripRight_append_singleton _ _ (by decide)

/-- Claim C5 as amended: over a store all of whose triggers (lower-cased
keys and aliases) are non-empty, a whitespace-only input matches no topic
and the responder returns the generic reply. -/
theorem respond_ws_amended_c5 (kb : KB) (speaker msg : PyStr)
    (htrig : ∀ e ∈ kb, ∀ t ∈ triggersOf e.1 e.2, t ≠ [])
    (hws : ∀ c ∈ msg, isPyWs c = true) :
    get_ai_response kb speaker msg = defaultResponse speaker := by
  have hml : normalizeMsg msg = [] := normalizeMsg_of_ws msg hws
  have hfind : List.find? (topicMatches (normalizeMsg msg)) kb = none := by
    rw [hml]
    refine List.find?_eq_none.mpr fun e he => ?_
    rw [Bool.not_eq_true]
    unfold topicMatches
    refine List.any_eq_false.mpr fun t htmem => ?_
    rw [Bool.not_eq_true]
    exact triggerHit_nil_of_ne t (htrig e he t htmem)
  simp only [get_ai_response, hfind]
  rw [hml]
  have hc1 : pyContains [] (strLit "hello") = false := by decide
  have hc2 : pyContains [] (strLit "hi") = false := by decide
  have hc3 : pyContains [] (strLit "help") = false := by decide
  have hc4 : pyContains [] (strLit "what can you do") = false := by decide
  have hc5 : pyContains [] (strLit "thank") = false := by decide
  simp only [fallbackResponse, hc1, hc2, hc3, hc4, hc5, Bool.or_false, Bool.false_or,
    if_false, Bool.false_eq_true, ite_false]
  exact pyStrip_defaultResponse speaker

/-- A small store whose triggers are all non-empty. -/
def kbW : KB := [(strLit "shop", ⟨[strLit "store"], some (strLit "A shop."), none, none, none⟩)]

/-- Witness for the amended claim C5 at a concrete store and a
whitespace-only message. -/
theorem respond_ws_amended_c5_witness :
    (∀ e ∈ kbW, ∀ t ∈ triggersOf e.1 e.2, t ≠ [])
    ∧ (∀ c ∈ strLit "  ", isPyWs c = true)
    ∧ get_ai_response kbW (strLit "Alex") (strLit "  ") = defaultResponse (strLit "Alex") :=
  ⟨by decide, by decide,
    respond_ws_amended_c5 kbW (strLit "Alex") (strLit "  ") (by decide) (by decide)⟩

/-! Claim C2: asking for a topic key by name. -/

/-- A store in which the key `cat` is shadowed by the earlier topic `t`
through the `endswith` trigger check. -/
def kbC2 : KB := [(strLit "t", d0), (strLit "cat", d0)]

/-- Counterexample to claim C2 as stated: `cat` is a key of the store, yet
`respond("s", "cat")` answers for the earlier-ordered topic `t` (because
`"cat".endswith("t")`), so the reply does not contain `Regarding cat:`. -/
theorem respond_key_counterexample_c2 :
    (strLit "cat") ∈ kbC2.map Prod.fst
    ∧ pyContains (get_ai_response kbC2 (strLit "s") (strLit "cat"))
        (strLit "Regarding cat:") = false
    ∧ get_ai_response kbC2 (strLit "s") (strLit "cat")
        = pyStrip (composeMatched (strLit "t") d0) := by
  refine ⟨by decide, by decide, by decide⟩

/-- Claim C2 as amended: for a topic key `K` whose lower-casing carries no
surrounding whitespace and which no earlier-ordered topic matches,
`respond(speaker, K)` contains the substring `Regarding K:`. -/
theorem respond_key_amended_c2 (pre post : KB) (key : PyStr) (d : TopicData) (speaker : PyStr)
    (hkey : pyStrip (pyLower key) = pyLower key)
    (hpre : ∀ e ∈ pre, topicMatches (pyLower key) e = false) :
    pyContains (get_ai_response (pre ++ (key, d) :: post) speaker key)
      ((strLit "Regarding " ++ key) ++ [':']) = true := by
  have hml : normalizeMsg key = pyLower key := by rw [normalizeMsg, hkey]
  have hhit : topicMatches (pyLower key) (key, d) = true := by
    unfold topicMatches triggersOf
    refine List.any_eq_true.mpr ⟨pyLower key, by simp, ?_⟩
    unfold triggerHit
    simp
  have hfind : List.find? (topicMatches (normalizeMsg key)) (pre ++ (key, d) :: post)
      = some (key, d) := by
    rw [hml]
    exact find?_middle _ pre post (key, d) hpre hhit
  simp only [get_ai_response, hfind]
  have hcomp : composeMatched key d
      = ((strLit "Regarding " ++ key) ++ [':'])
        ++ ('\n' :: (d.description.getD (strLit "No description available.")
          ++ ((if d.details.getD [] == [] then [] else strLit "\nMore Info: " ++ d.details.getD [])
          ++ ((if d.website.getD [] == [] then [] else strLit "\nWebsite: " ++ d.website.getD [])
          ++ (if d.contact.getD [] == [] then [] else strLit "\nContact: " ++ d.contact.getD []))))) := by
    unfold composeMatched
    rw [show strLit ":\n" = [':', '\n'] from rfl]
    simp [List.append_assoc]
  rw [hcomp]
  rw [show strLit "Regarding " = 'R' :: strLit "egarding " from rfl]
  rw [List.cons_append, List.cons_append, List.cons_append]
  rw [pyStrip_cons _ _ (by decide)]
  rw [pyStripRight_append _ ':' _ (by decide)]
  unfold pyContains
  rw [decide_eq_true_iff]
  exact ⟨[], _, rfl⟩

/-- Witness for the amended claim C2 at a concrete one-topic store. -/
theorem respond_key_amended_c2_witness :
    pyStrip (pyLower (strLit "cat")) = pyLower (strLit "cat")
    ∧ pyContains (get_ai_response [(strLit "cat", d0)] (strLit "s") (strLit "cat"))
        ((strLit "Regarding " ++ strLit "cat") ++ [':']) = true :=
  ⟨by decide,
    respond_key_amended_c2 [] [] (strLit "cat") d0 (strLit "s") (by decide) (by decide)⟩

/-! Claim C3: outbound truncation to 144 characters. -/

/-- Claim C3: whenever the chat handler sends a reply, a reply longer than
144 characters goes out as its first 141 characters followed by `...`
(exactly 144 characters), and a reply of at most 144 characters goes out
unchanged. -/
theorem chat_truncation_c3 (kb : KB) (pn pid s : PyStr) (out : OutboundOSC)
    (h : handle_chat_message kb pn pid (OSCValue.str s) = some out) :
    (144 < (get_ai_response kb pn (pyStrip s)).length →
      out.args = [OSCValue.bool true,
          OSCValue.str ((get_ai_response kb pn (pyStrip s)).take 141 ++ strLit "...")]
      ∧ ((get_ai_response kb pn (pyStrip s)).take 141 ++ strLit "...").length = 144)
    ∧ ((get_ai_response kb pn (pyStrip s)).length ≤ 144 →
      out.args = [OSCValue.bool true, OSCValue.str (get_ai_response kb pn (pyStrip s))]) := by
  simp only [handle_chat_message] at h
  by_cases hs : (pyStrip s == []) = true
  · rw [if_pos hs] at h
    exact absurd h (by simp)
  · rw [if_neg hs] at h
    rw [show (144 - 3 : Nat) = 141 from rfl] at h
    have hout := Option.some_inj.mp h
    subst hout
    constructor
    · intro hlen
      rw [if_pos hlen]
      refine ⟨rfl, ?_⟩
      have h3 : (strLit "...").length = 3 := rfl
      simp [List.length_append, List.length_take, h3]
      omega
    · intro hle
      rw [if_neg (by omega)]

/-- A record whose description alone exceeds the 144-character limit. -/
def dLong : TopicData :=
  ⟨[], some (strLit "This is a very long description intended to exceed the VRChat chatbox limit of one hundred and forty four characters so that the reply gets truncated by the handler."),
    none, none, none⟩

/-- A store producing a reply longer than 144 characters for input `k`. -/
def kbLong : KB := [(strLit "k", dLong)]

/-- The outbound message the handler sends for that store and input. -/
def outLong : OutboundOSC :=
  ⟨osc_chat_address,
    [OSCValue.bool true,
      OSCValue.str ((get_ai_response kbLong (strLit "p") (pyStrip (strLit "k"))).take 141
        ++ strLit "...")]⟩

set_option maxRecDepth 100000 in
/-- Witness for claim C3 at a concrete store whose reply is truncated. -/
theorem chat_truncation_c3_witness :
    handle_chat_message kbLong (strLit "p") (strLit "q") (OSCValue.str (strLit "k")) = some outLong
    ∧ 144 < (get_ai_response kbLong (strLit "p") (pyStrip (strLit "k"))).length
    ∧ (outLong.args = [OSCValue.bool true,
          OSCValue.str ((get_ai_response kbLong (strLit "p") (pyStrip (strLit "k"))).take 141
            ++ strLit "...")]
      ∧ ((get_ai_response kbLong (strLit "p") (pyStrip (strLit "k"))).take 141
          ++ strLit "...").length = 144) := by
  have hH : handle_chat_message kbLong (strLit "p") (strLit "q") (OSCValue.str (strLit "k"))
      = some outLong := by decide
  exact ⟨hH, by decide,
    (chat_truncation_c3 kbLong (strLit "p") (strLit "q") (strLit "k") outLong hH).1 (by decide)⟩

/-! Claim C6: chat-message validation. -/

/-- Claim C6: a chat message that is not a string, or that is empty after
trimming, is dropped (`none`: the matcher result is never sent and no
outbound message exists); any other chat message yields exactly one
outbound message. -/
theorem chat_validation_c6 (kb : KB) (pn pid : PyStr) (msg : OSCValue) :
    ((∀ s, msg = OSCValue.str s → pyStrip s = []) → handle_chat_message kb pn pid msg = none)
    ∧ (∀ s, msg = OSCValue.str s → pyStrip s ≠ [] →
        ∃ out, handle_chat_message kb pn pid msg = some out) := by
  constructor
  · intro h
    cases msg with
    | str s =>
        have hs := h s rfl
        simp [handle_chat_message, hs]
    | bool b => rfl
    | int n => rfl
  · rintro s rfl hne
    refine ⟨⟨osc_chat_address, [OSCValue.bool true, OSCValue.str
      (if 144 < (get_ai_response kb pn (pyStrip s)).length
        then (get_ai_response kb pn (pyStrip s)).take (144 - 3) ++ strLit "..."
        else get_ai_response kb pn (pyStrip s))]⟩, ?_⟩
    simp only [handle_chat_message]
    rw [if_neg (by simpa [beq_iff_eq] using hne)]

/-- Witness for claim C6: a whitespace-only message and a non-string
message are dropped; a non-empty string message is answered. -/
theorem chat_validation_c6_witness :
    handle_chat_message [] (strLit "p") (strLit "q") (OSCValue.str (strLit " ")) = none
    ∧ handle_chat_message [] (strLit "p") (strLit "q") (OSCValue.int 3) = none
    ∧ ∃ out, handle_chat_message [] (strLit "p") (strLit "q") (OSCValue.str (strLit "hi"))
        = some out := by
  refine ⟨(chat_validation_c6 [] _ _ _).1 ?_,
    (chat_validation_c6 [] _ _ (OSCValue.int 3)).1 ?_,
    (chat_validation_c6 [] _ _ _).2 (strLit "hi") rfl ?_⟩
  · intro s hs
    cases hs
    decide
  · intro s hs
    cases hs
  · decide

/-! Claim C7: the Discord notifier's outbound calls. -/

/-- Claim C7: with no webhook URL configured the notifier performs zero
HTTP calls; with a URL it performs exactly one POST whose content is the
space-joined owner mentions, a newline and the message, trimmed, with a
10-second timeout.  The function is total, so response errors (absorbed in
the source by `except`) never reach the caller. -/
theorem notify_calls_c7 (cfg : NotifyConfig) (message : PyStr) :
    send_discord_notification cfg message =
      if cfg.discord_webhook_url = [] then []
      else [⟨cfg.discord_webhook_url,
        pyStrip (List.intercalate (strLit " ") cfg.owner_discord_ids ++ strLit "\n" ++ message),
        10⟩] := by
  simp only [send_discord_notification]
  by_cases h : cfg.discord_webhook_url = []
  · simp [h]
  · rw [if_neg (by simpa [beq_iff_eq] using h), if_neg h]
    by_cases ho : cfg.owner_discord_ids = []
    · rw [if_pos (by simpa [beq_iff_eq] using ho), ho]
      rfl
    · rw [if_neg (by simpa [beq_iff_eq] using ho)]

/-! Claim C8: reloading fully replaces the store. -/

/-- Claim C8: a second load discards everything the first load produced —
the resulting store equals what the second load yields from an empty prior
state, and the responder over the reloaded store behaves exactly as over
the second file's contents alone (so triggers only present in the first
file no longer match). -/
theorem reload_replaces_c8 (first second : KBLoadResult) (prev : KB) (sp txt : PyStr) :
    load_knowledge_base second (load_knowledge_base first prev)
      = load_knowledge_base second []
    ∧ (∀ kb2, second = KBLoadResult.ok kb2 →
        load_knowledge_base second (load_knowledge_base first prev) = kb2
        ∧ get_ai_response (load_knowledge_base second (load_knowledge_base first prev)) sp txt
            = get_ai_response kb2 sp txt) := by
  cases second <;> simp [load_knowledge_base]

/-- Witness for claim C8: reloading over a previously loaded store yields
exactly the second file's contents, for matching as well. -/
theorem reload_replaces_c8_witness :
    load_knowledge_base (KBLoadResult.ok kbW) (load_knowledge_base (KBLoadResult.ok kbC2) [])
      = kbW
    ∧ get_ai_response (load_knowledge_base (KBLoadResult.ok kbW)
        (load_knowledge_base (KBLoadResult.ok kbC2) [])) (strLit "s") (strLit "cat")
      = get_ai_response kbW (strLit "s") (strLit "cat") :=
  (reload_replaces_c8 (KBLoadResult.ok kbC2) (KBLoadResult.ok kbW) [] (strLit "s")
    (strLit "cat")).2 kbW rfl

/-! Claim C9: an empty-string key or alias matches every input. -/

/-- Claim C9: a topic holding the empty trigger (empty key or empty alias)
satisfies the match condition for every input whatsoever — the
`startswith` check against the empty trigger always holds — so the
responder returns that topic's reply whenever no earlier-ordered topic
matches first. -/
theorem empty_trigger_c9 (pre post : KB) (key : PyStr) (d : TopicData) (speaker msg : PyStr)
    (hempty : key = [] ∨ [] ∈ d.aliases)
    (hpre : ∀ e ∈ pre, topicMatches (normalizeMsg msg) e = false) :
    topicMatches (normalizeMsg msg) (key, d) = true
    ∧ get_ai_response (pre ++ (key, d) :: post) speaker msg = pyStrip (composeMatched key d) := by
  have hmem : ([] : PyStr) ∈ triggersOf key d := by
    rcases hempty with rfl | h
    · unfold triggersOf
      rw [show pyLower ([] : PyStr) = [] from rfl]
      exact List.mem_cons_self _ _
    · unfold triggersOf
      exact List.mem_cons_of_mem _ (List.mem_map.mpr ⟨[], h, rfl⟩)
  have hhit : topicMatches (normalizeMsg msg) (key, d) = true := by
    unfold topicMatches
    refine List.any_eq_true.mpr ⟨[], hmem, ?_⟩
    unfold triggerHit pyStartsWith
    simp [List.isPrefixOf]
  refine ⟨hhit, ?_⟩
  have hfind := find?_middle _ pre post (key, d) hpre hhit
  simp only [get_ai_response, hfind]

/-- Witness for claim C9 at a store whose only topic has an empty alias:
an arbitrary sentence matches it. -/
theorem empty_trigger_c9_witness :
    ((strLit "z" : PyStr) = [] ∨ ([] : PyStr) ∈ TopicData.aliases ⟨[[]], none, none, none, none⟩)
    ∧ topicMatches (normalizeMsg (strLit "anything at all"))
        (strLit "z", ⟨[[]], none, none, none, none⟩) = true
    ∧ get_ai_response [(strLit "z", ⟨[[]], none, none, none, none⟩)] (strLit "s")
        (strLit "anything at all")
      = pyStrip (composeMatched (strLit "z") ⟨[[]], none, none, none, none⟩) := by
  refine ⟨Or.inr (by decide), ?_, ?_⟩
  · exact (empty_trigger_c9 [] [] (strLit "z") ⟨[[]], none, none, none, none⟩ (strLit "s")
      (strLit "anything at all") (Or.inr (by decide)) (by decide)).1
  · exact (empty_trigger_c9 [] [] (strLit "z") ⟨[[]], none, none, none, none⟩ (strLit "s")
      (strLit "anything at all") (Or.inr (by decide)) (by decide)).2

/-! Claim C10: missing description versus empty-string description. -/

/-- The conditional detail/website/contact lines of the matched reply
(Main.py lines 393-398). -/
def extrasOf (d : TopicData) : PyStr :=
  ((if d.details.getD [] == [] then [] else strLit "\nMore Info: " ++ d.details.getD [])
  ++ (if d.website.getD [] == [] then [] else strLit "\nWebsite: " ++ d.website.getD []))
  ++ (if d.contact.getD [] == [] then [] else strLit "\nContact: " ++ d.contact.getD [])

/-- Claim C10: for a matched topic with no `description` field the reply
body after `Regarding {key}:` is the placeholder
`No description available.`, while a description present as the empty
string is inserted as-is, leaving the description line empty. -/
theorem description_fields_c10 (kb : KB) (sp msg key : PyStr) (d : TopicData)
    (hfind : List.find? (topicMatches (normalizeMsg msg)) kb = some (key, d)) :
    (d.description = none →
      get_ai_response kb sp msg
        = pyStrip (((strLit "Regarding " ++ key) ++ strLit ":\n")
            ++ (strLit "No description available." ++ extrasOf d)))
    ∧ (d.description = some [] →
      get_ai_response kb sp msg
        = pyStrip (((strLit "Regarding " ++ key) ++ strLit ":\n") ++ extrasOf d)) := by
  simp only [get_ai_response, hfind]
  constructor <;> intro hd <;> unfold composeMatched extrasOf <;> rw [hd] <;>
    simp [List.append_assoc]

/-- A record whose description is present but the empty string. -/
def dEmpty : TopicData := ⟨[], some [], none, none, none⟩

/-- A one-topic store whose record lacks the description field. -/
def kbDn : KB := [(strLit "a", d0)]

/-- A one-topic store whose record has an empty-string description. -/
def kbDe : KB := [(strLit "b", dEmpty)]

/-- Witness for claim C10 at concrete stores for both description cases. -/
theorem description_fields_c10_witness :
    d0.description = none
    ∧ get_ai_response kbDn (strLit "s") (strLit "a")
        = pyStrip (((strLit "Regarding " ++ strLit "a") ++ strLit ":\n")
            ++ (strLit "No description available." ++ extrasOf d0))
    ∧ dEmpty.description = some []
    ∧ get_ai_response kbDe (strLit "s") (strLit "b")
        = pyStrip (((strLit "Regarding " ++ strLit "b") ++ strLit ":\n") ++ extrasOf dEmpty) := by
  refine ⟨rfl,
    (description_fields_c10 kbDn (strLit "s") (strLit "a") (strLit "a") d0 (by decide)).1 rfl,
    rfl,
    (description_fields_c10 kbDe (strLit "s") (strLit "b") (strLit "b") dEmpty (by decide)).2 rfl⟩
